import Mathlib

/-
Verification of the playback state machine of `pympress/media_overlays/gst_backend.py`
(class `GstOverlay`).

Shallow embedding conventions:
  * `GstOverlay` holds the three instance attributes of the Python class:
    `playbin` (the optional engine handle), `muted` (client-side desired mute flag)
    and `uri` (pending target).  The write-only `self.bus = None` assignment in
    `do_stop` touches no attribute read anywhere, so it is not modelled.
  * A `Sys` wraps the overlay together with the ambient engine world: the list of
    engine objects currently alive (created by `Gst.ElementFactory.make` and not yet
    set to the NULL state and dropped) and a fresh-id allocator.  This makes the
    "at most one engine handle alive" property a genuine invariant instead of a
    type-level triviality.
  * Engine commands issued during a call (`set_property('uri', ...)`, `set_mute`,
    `set_state`, `seek_simple`) are returned as a `List Cmd` trace, in issuance order.
  * Engine queries (`query_duration`, `query_position`) return values coming from the
    engine, so their results are parameters of the embedded functions.
  * `get_state(0).state` is modelled by the last state commanded to the handle.
  * Python real-number arithmetic (`/ 1e9`, `max(0, ...)`) is modelled over `ℚ`/`ℤ`.
  * A Python `AttributeError` raised by dereferencing a `None` handle is modelled
    by `Except.error`.
-/

/-- The Gst states used by the source: `Gst.State.NULL`, `PAUSED`, `PLAYING`. -/
inductive GstState
  | NULL
  | PAUSED
  | PLAYING
  deriving DecidableEq, Repr

/-- An engine command issued to the playbin identified by `id`. -/
inductive Cmd
  | setUri (id : Nat) (u : Option String)
  | setMute (id : Nat) (b : Bool)
  | setState (id : Nat) (s : GstState)
  | seekSimple (id : Nat) (ns : ℚ)
  deriving DecidableEq, Repr

/-- One engine playbin object: its identity, the state last commanded to it,
the mute flag last commanded to it, and the uri it was bound to. -/
structure Playbin where
  id : Nat
  state : GstState
  muteCommanded : Bool
  pbUri : Option String
  deriving DecidableEq, Repr

/-- The instance attributes of the Python class `GstOverlay`
(class-level defaults: `playbin = None`, `muted = False`, `uri = None`). -/
structure GstOverlay where
  playbin : Option Playbin
  muted : Bool
  uri : Option String
  deriving DecidableEq, Repr

/-- The overlay together with the ambient engine world: ids of engine objects
currently alive, and the allocator for fresh ids. -/
structure Sys where
  ov : GstOverlay
  alive : List Nat
  nextId : Nat
  deriving DecidableEq, Repr

/-- A freshly constructed overlay: no handle ever created. -/
def Sys.init : Sys :=
  { ov := { playbin := none, muted := false, uri := none }, alive := [], nextId := 0 }

/-- `is_playing` (lines 60-66):
`return self.playbin is not None and self.playbin.get_state(0).state == Gst.State.PLAYING`. -/
def Sys.is_playing (s : Sys) : Bool :=
  match s.ov.playbin with
  | none => false
  | some pb => pb.state == GstState.PLAYING

/-- `set_file` (lines 69-75): `self.uri = 'file://' + filepath`. -/
def Sys.set_file (s : Sys) (filepath : String) : Sys :=
  { s with ov := { s.ov with uri := some ("file://" ++ filepath) } }

/-- `mute` (lines 78-89): stores the flag in `self.muted`; if a handle exists,
`GLib.idle_add(self.playbin.set_mute, value)` applies it to that handle; returns `False`. -/
def Sys.mute (s : Sys) (value : Bool) : Bool × Sys × List Cmd :=
  let s1 : Sys := { s with ov := { s.ov with muted := value } }
  match s1.ov.playbin with
  | none => (false, s1, [])
  | some pb =>
      (false,
       { s1 with ov := { s1.ov with playbin := some { pb with muteCommanded := value } } },
       [Cmd.setMute pb.id value])

/-- `do_update_duration` (lines 99-103):
`changed, time_ns = self.playbin.query_duration(Gst.Format.TIME)` followed by
`self.update_range(max(0, time_ns) / 1e9)`.  There is no `None` check on
`self.playbin`, so a `None` handle raises `AttributeError` (modelled by `.error`);
otherwise the value handed to `update_range` is returned. -/
def Sys.do_update_duration (s : Sys) (query_duration : Bool × ℤ) : Except String ℚ :=
  match s.ov.playbin with
  | none => .error "AttributeError"
  | some _ => .ok (((max 0 query_duration.2 : ℤ) : ℚ) / 10 ^ 9)

/-- `do_update_time` (lines 106-117): returns `False` at once when
`self.playbin is None`; otherwise queries the position, calls
`self.update_progress(time_ns / 1e9)` and returns `True`.  The second component
is the value forwarded to `update_progress` (`none` when no call is made). -/
def Sys.do_update_time (s : Sys) (query_position : Bool × ℤ) : Bool × Option ℚ :=
  match s.ov.playbin with
  | none => (false, none)
  | some _ => (true, some ((query_position.2 : ℚ) / 10 ^ 9))

/-- `do_stop` (lines 178-188): when `self.playbin is None`, returns `False` at once;
otherwise commands the handle to `Gst.State.NULL`, drops it (`self.playbin = None`,
so the engine object is no longer alive), and returns `False`. -/
def Sys.do_stop (s : Sys) : Bool × Sys × List Cmd :=
  match s.ov.playbin with
  | none => (false, s, [])
  | some pb =>
      (false,
       { s with ov := { s.ov with playbin := none }, alive := s.alive.erase pb.id },
       [Cmd.setState pb.id GstState.NULL])

/-- `do_play` (lines 120-147): if a handle exists, `self.do_stop()` first; then
`Gst.ElementFactory.make('playbin', None)` creates a fresh engine object, the bus is
wired, and `set_property('uri', self.uri)`, `set_mute(self.muted)`,
`set_state(Gst.State.PLAYING)` are issued in that order; returns `False`. -/
def Sys.do_play (s : Sys) : Bool × Sys × List Cmd :=
  let stopped : Sys × List Cmd :=
    match s.ov.playbin with
    | some _ => (s.do_stop.2.1, s.do_stop.2.2)
    | none => (s, [])
  let s1 := stopped.1
  let pb : Playbin :=
    { id := s1.nextId, state := GstState.PLAYING,
      muteCommanded := s1.ov.muted, pbUri := s1.ov.uri }
  (false,
   { s1 with
       ov := { s1.ov with playbin := some pb },
       alive := s1.alive ++ [pb.id],
       nextId := s1.nextId + 1 },
   stopped.2 ++
     [Cmd.setUri pb.id s1.ov.uri, Cmd.setMute pb.id s1.ov.muted,
      Cmd.setState pb.id GstState.PLAYING])

/-- `do_play_pause` (lines 164-175): when a handle exists, issues
`set_state(Gst.State.PLAYING if not self.is_playing() else Gst.State.PAUSED)`;
returns `False` in every case. -/
def Sys.do_play_pause (s : Sys) : Bool × Sys × List Cmd :=
  match s.ov.playbin with
  | none => (false, s, [])
  | some pb =>
      let target := if ! s.is_playing then GstState.PLAYING else GstState.PAUSED
      (false,
       { s with ov := { s.ov with playbin := some { pb with state := target } } },
       [Cmd.setState pb.id target])

/-- `do_set_time` (lines 191-204): when a handle exists, issues
`seek_simple(Gst.Format.TIME, Gst.SeekFlags.FLUSH, t * Gst.SECOND)`
(`Gst.SECOND = 10^9`); returns `False` in every case. -/
def Sys.do_set_time (s : Sys) (t : ℚ) : Bool × Sys × List Cmd :=
  match s.ov.playbin with
  | none => (false, s, [])
  | some pb => (false, s, [Cmd.seekSimple pb.id (t * 10 ^ 9)])

/-- The operations a run of the overlay may perform, with the engine query results
that an operation consumes carried as payload. -/
inductive Op
  | play
  | stop
  | playPause
  | muteOp (b : Bool)
  | setTime (t : ℚ)
  | setFile (p : String)
  | updateTime (q : Bool × ℤ)
  | updateDuration (q : Bool × ℤ)

/-- State transition of one operation.  `do_update_time` never mutates overlay state;
`do_update_duration` either raises before any mutation (handle `None`) or only calls
the UI back, so both leave the state unchanged. -/
def Sys.step (s : Sys) : Op → Sys
  | .play => s.do_play.2.1
  | .stop => s.do_stop.2.1
  | .playPause => s.do_play_pause.2.1
  | .muteOp b => (s.mute b).2.1
  | .setTime t => (s.do_set_time t).2.1
  | .setFile p => s.set_file p
  | .updateTime _ => s
  | .updateDuration _ => s

/-- Run a sequence of operations from a state. -/
def Sys.run (s : Sys) (ops : List Op) : Sys :=
  ops.foldl Sys.step s

/-- The ids the overlay's handle slot accounts for. -/
def handleIds (s : Sys) : List Nat :=
  match s.ov.playbin with
  | none => []
  | some pb => [pb.id]

/-- Reachability invariant: the alive engine objects are exactly the ones the handle
slot holds, and any held id is below the allocator. -/
def SysInv (s : Sys) : Prop :=
  s.alive = handleIds s ∧ ∀ i ∈ handleIds s, i < s.nextId

theorem sysInv_init : SysInv Sys.init := by
  constructor
  · rfl
  · intro i hi
    simp [Sys.init, handleIds] at hi

theorem do_play_eq_none (s : Sys) (h : s.ov.playbin = none) :
    s.do_play =
      (false,
       { s with
           ov := { s.ov with
                     playbin := some { id := s.nextId, state := GstState.PLAYING,
                                       muteCommanded := s.ov.muted, pbUri := s.ov.uri } },
           alive := s.alive ++ [s.nextId],
           nextId := s.nextId + 1 },
       [Cmd.setUri s.nextId s.ov.uri, Cmd.setMute s.nextId s.ov.muted,
        Cmd.setState s.nextId GstState.PLAYING]) := by
  simp [Sys.do_play, h]

theorem do_play_eq_some (s : Sys) (pb : Playbin) (h : s.ov.playbin = some pb) :
    s.do_play =
      (false,
       { s with
           ov := { s.ov with
                     playbin := some { id := s.nextId, state := GstState.PLAYING,
                                       muteCommanded := s.ov.muted, pbUri := s.ov.uri } },
           alive := s.alive.erase pb.id ++ [s.nextId],
           nextId := s.nextId + 1 },
       [Cmd.setState pb.id GstState.NULL,
        Cmd.setUri s.nextId s.ov.uri, Cmd.setMute s.nextId s.ov.muted,
        Cmd.setState s.nextId GstState.PLAYING]) := by
  simp [Sys.do_play, Sys.do_stop, h]

theorem do_stop_sys_none (s : Sys) (h : s.ov.playbin = none) : s.do_stop = (false, s, []) := by
  simp [Sys.do_stop, h]

theorem do_stop_sys_some (s : Sys) (pb : Playbin) (h : s.ov.playbin = some pb) :
    s.do_stop =
      (false,
       { s with ov := { s.ov with playbin := none }, alive := s.alive.erase pb.id },
       [Cmd.setState pb.id GstState.NULL]) := by
  simp [Sys.do_stop, h]

theorem sysInv_step (s : Sys) (hs : SysInv s) (op : Op) : SysInv (s.step op) := by
  obtain ⟨h1, h2⟩ := hs
  cases op with
  | play =>
      cases hpb : s.ov.playbin with
      | none =>
          rw [handleIds, hpb] at h1
          constructor
          · simp [Sys.step, do_play_eq_none s hpb, handleIds, h1]
          · intro i hi
            simp [Sys.step, do_play_eq_none s hpb, handleIds] at hi ⊢
            omega
      | some pb0 =>
          rw [handleIds, hpb] at h1
          constructor
          · simp [Sys.step, do_play_eq_some s pb0 hpb, handleIds, h1]
          · intro i hi
            simp [Sys.step, do_play_eq_some s pb0 hpb, handleIds] at hi ⊢
            omega
  | stop =>
      cases hpb : s.ov.playbin with
      | none =>
          constructor
          · simpa [Sys.step, do_stop_sys_none s hpb] using h1
          · intro i hi
            simp [Sys.step, do_stop_sys_none s hpb] at hi ⊢
            exact h2 i hi
      | some pb0 =>
          rw [handleIds, hpb] at h1
          constructor
          · simp [Sys.step, do_stop_sys_some s pb0 hpb, handleIds, h1]
          · intro i hi
            simp [Sys.step, do_stop_sys_some s pb0 hpb, handleIds] at hi
  | playPause =>
      cases hpb : s.ov.playbin with
      | none =>
          constructor
          · simpa [Sys.step, Sys.do_play_pause, hpb] using h1
          · intro i hi
            simp [Sys.step, Sys.do_play_pause, hpb] at hi ⊢
            exact h2 i hi
      | some pb0 =>
          rw [handleIds, hpb] at h1
          constructor
          · simp [Sys.step, Sys.do_play_pause, hpb, handleIds, h1]
          · intro i hi
            simp [Sys.step, Sys.do_play_pause, hpb, handleIds] at hi ⊢
            rw [hi]
            exact h2 pb0.id (by simp [handleIds, hpb])
  | muteOp b =>
      cases hpb : s.ov.playbin with
      | none =>
          constructor
          · simpa [Sys.step, Sys.mute, hpb, handleIds] using h1
          · intro i hi
            simp [Sys.step, Sys.mute, hpb, handleIds] at hi
      | some pb0 =>
          rw [handleIds, hpb] at h1
          constructor
          · simp [Sys.step, Sys.mute, hpb, handleIds, h1]
          · intro i hi
            simp [Sys.step, Sys.mute, hpb, handleIds] at hi ⊢
            rw [hi]
            exact h2 pb0.id (by simp [handleIds, hpb])
  | setTime t =>
      have hsys : (s.do_set_time t).2.1 = s := by
        unfold Sys.do_set_time
        cases s.ov.playbin <;> rfl
      constructor
      · simpa [Sys.step, hsys] using h1
      · intro i hi
        simp [Sys.step, hsys] at hi ⊢
        exact h2 i hi
  | setFile p =>
      constructor
      · simpa [Sys.step, Sys.set_file, handleIds] using h1
      · intro i hi
        simp [Sys.step, Sys.set_file, handleIds] at hi ⊢
        exact h2 i (by simpa [handleIds] using hi)
  | updateTime q => exact ⟨h1, h2⟩
  | updateDuration q => exact ⟨h1, h2⟩

theorem sysInv_run (s : Sys) (hs : SysInv s) (ops : List Op) : SysInv (s.run ops) := by
  induction ops generalizing s with
  | nil => exact hs
  | cons op rest ih => exact ih (s.step op) (sysInv_step s hs op)

theorem sysInv_reach (ops : List Op) : SysInv (Sys.init.run ops) :=
  sysInv_run Sys.init sysInv_init ops

/-- C1: along every operation sequence from a fresh overlay, at most one engine
object is alive at any time; `do_play` always returns the one-shot re-arm signal
`False`; and when a handle `pb` already exists in a reachable state, `do_play`
first commands that handle to the NULL state (the teardown performed via
`do_stop`) before the commands creating the new handle, and the old engine
object is no longer alive once `do_play` returns. -/
theorem c1_at_most_one_handle (ops : List Op) (pb : Playbin)
    (h : (Sys.init.run ops).ov.playbin = some pb) :
    (∀ ops2 : List Op, (Sys.init.run ops2).alive.length ≤ 1) ∧
    (∀ s : Sys, s.do_play.1 = false) ∧
    ((Sys.init.run ops).do_play.2.2).head? = some (Cmd.setState pb.id GstState.NULL) ∧
    pb.id ∉ ((Sys.init.run ops).do_play.2.1).alive := by
  obtain ⟨h1, h2⟩ := sysInv_reach ops
  rw [handleIds, h] at h1
  have hlt : pb.id < (Sys.init.run ops).nextId :=
    h2 pb.id (by simp [handleIds, h])
  refine ⟨?_, ?_, ?_, ?_⟩
  · intro ops2
    obtain ⟨g1, _⟩ := sysInv_reach ops2
    rw [g1, handleIds]
    cases (Sys.init.run ops2).ov.playbin <;> simp
  · intro s
    unfold Sys.do_play
    cases hs : s.ov.playbin <;> simp
  · simp [do_play_eq_some _ pb h]
  · rw [do_play_eq_some _ pb h]
    simp [h1]
    omega

/-- Witness for C1 at the concrete run consisting of a single `do_play`. -/
theorem c1_at_most_one_handle_witness :
    (Sys.init.run [Op.play]).ov.playbin =
      some { id := 0, state := GstState.PLAYING, muteCommanded := false, pbUri := none } ∧
    ((Sys.init.run [Op.play]).do_play.2.2).head? = some (Cmd.setState 0 GstState.NULL) :=
  ⟨rfl,
   (c1_at_most_one_handle [Op.play]
      { id := 0, state := GstState.PLAYING, muteCommanded := false, pbUri := none }
      rfl).2.2.1⟩

/-- C2: the claim that every marshaled callback tied to a handle checks handle
liveness is violated by `do_update_duration`.  In the state reached by `do_play`
followed by `do_stop` (handle gone), a pending `do_update_duration` callback
dereferences the `None` handle and raises `AttributeError` instead of being a
safe no-op — while `do_update_time` in the same state does check liveness and
returns `False` without touching the UI. -/
theorem c2_duration_callback_crashes_after_stop :
    (Sys.init.do_play.2.1).do_stop.2.1.do_update_duration (true, 0) =
      .error "AttributeError" ∧
    (Sys.init.do_play.2.1).do_stop.2.1.do_update_time (true, 0) = (false, none) := by
  constructor <;> rfl

/-- C3: each tick of `do_update_time` returns `True` (reschedule) iff the handle
is non-null at that moment, and when the handle is gone it returns `False` and
forwards nothing to the UI progress callback. -/
theorem c3_update_time_reschedule_iff_handle (s : Sys) (q : Bool × ℤ) :
    ((s.do_update_time q).1 = true ↔ s.ov.playbin ≠ none) ∧
    (s.ov.playbin = none → s.do_update_time q = (false, none)) := by
  cases h : s.ov.playbin with
  | none => simp [Sys.do_update_time, h]
  | some pb => simp [Sys.do_update_time, h]

/-- Witness for C3 at the fresh overlay, where the handle is absent. -/
theorem c3_update_time_witness :
    Sys.init.do_update_time (true, 5) = (false, none) :=
  (c3_update_time_reschedule_iff_handle Sys.init (true, 5)).2 rfl

/-- C4: `do_stop` is idempotent: a second `do_stop` returns `False`, changes
nothing and issues no engine command; `do_stop` on a fresh overlay (no handle
ever created) is likewise a no-op; after `do_stop` the handle is absent and
`is_playing` returns `false`. -/
theorem c4_stop_idempotent (s : Sys) :
    s.do_stop.2.1.do_stop = (false, s.do_stop.2.1, []) ∧
    Sys.init.do_stop = (false, Sys.init, []) ∧
    s.do_stop.2.1.ov.playbin = none ∧
    s.do_stop.2.1.is_playing = false := by
  have hstop : s.do_stop.2.1.ov.playbin = none := by
    cases h : s.ov.playbin with
    | none => rw [do_stop_sys_none s h]; exact h
    | some pb => rw [do_stop_sys_some s pb h]
  exact ⟨do_stop_sys_none _ hstop, rfl, hstop, by simp [Sys.is_playing, hstop]⟩

/-- C5: whenever a handle exists, the value forwarded to the UI range callback by
`do_update_duration` is `max(0, time_ns) / 1e9`; a negative query result is
forwarded as exactly `0`, and the forwarded duration is never negative. -/
theorem c5_duration_clamped (s : Sys) (pb : Playbin) (h : s.ov.playbin = some pb)
    (changed : Bool) (time_ns : ℤ) :
    s.do_update_duration (changed, time_ns) = .ok (((max 0 time_ns : ℤ) : ℚ) / 10 ^ 9) ∧
    (time_ns < 0 → s.do_update_duration (changed, time_ns) = .ok 0) ∧
    (∀ q : ℚ, s.do_update_duration (changed, time_ns) = .ok q → 0 ≤ q) := by
  have he : s.do_update_duration (changed, time_ns) =
      .ok (((max 0 time_ns : ℤ) : ℚ) / 10 ^ 9) := by
    simp [Sys.do_update_duration, h]
  refine ⟨he, ?_, ?_⟩
  · intro hneg
    rw [he, max_eq_left (le_of_lt hneg)]
    norm_num
  · intro q hq
    rw [he] at hq
    obtain rfl : (((max 0 time_ns : ℤ) : ℚ) / 10 ^ 9) = q := by simpa using hq
    apply div_nonneg _ (by norm_num)
    exact_mod_cast le_max_left 0 time_ns

/-- Witness for C5: right after `do_play`, a duration query answering `-1` ns is
forwarded as `0`. -/
theorem c5_duration_witness :
    (Sys.init.do_play.2.1).do_update_duration (true, -1) = .ok 0 :=
  (c5_duration_clamped (Sys.init.do_play.2.1)
     { id := 0, state := GstState.PLAYING, muteCommanded := false, pbUri := none }
     rfl true (-1)).2.1 (by norm_num)

/-- C6: `is_playing` returns `true` iff a handle exists and the state queried
from it is `PLAYING`; with no handle it returns `false` (and, being total, raises
nothing). -/
theorem c6_is_playing_iff (s : Sys) :
    (s.is_playing = true ↔ ∃ pb, s.ov.playbin = some pb ∧ pb.state = GstState.PLAYING) ∧
    (s.ov.playbin = none → s.is_playing = false) := by
  cases h : s.ov.playbin with
  | none => simp [Sys.is_playing, h]
  | some pb => simp [Sys.is_playing, h]

/-- Witness for C6 at the fresh overlay. -/
theorem c6_is_playing_witness :
    Sys.init.is_playing = false :=
  (c6_is_playing_iff Sys.init).2 rfl

/-- C7: `mute v` always stores `v` in the client-side flag, commands the engine
only when a handle exists, and the stored flag survives handle creation: after
`mute v`, running `do_play` creates a handle whose commanded mute state is `v`,
and the command trace ends with set-uri, set-mute `v`, set-state PLAYING on the
new handle — so the mute command precedes the play command. -/
theorem c7_mute_persists (s : Sys) (v : Bool) :
    ((s.mute v).2.1.ov.muted = v) ∧
    (s.ov.playbin = none → (s.mute v).2.2 = []) ∧
    (∀ pb, s.ov.playbin = some pb → (s.mute v).2.2 = [Cmd.setMute pb.id v]) ∧
    ((s.mute v).2.1.do_play.2.1.ov.playbin =
       some { id := (s.mute v).2.1.nextId, state := GstState.PLAYING,
              muteCommanded := v, pbUri := s.ov.uri }) ∧
    (∃ pre, (s.mute v).2.1.do_play.2.2 =
       pre ++ [Cmd.setUri (s.mute v).2.1.nextId s.ov.uri,
               Cmd.setMute (s.mute v).2.1.nextId v,
               Cmd.setState (s.mute v).2.1.nextId GstState.PLAYING]) := by
  cases h : s.ov.playbin with
  | none =>
      have hmut : (s.mute v).2.1.ov.muted = v := by simp [Sys.mute, h]
      have huri : (s.mute v).2.1.ov.uri = s.ov.uri := by simp [Sys.mute, h]
      have hnone : (s.mute v).2.1.ov.playbin = none := by simp [Sys.mute, h]
      refine ⟨hmut, fun _ => by simp [Sys.mute, h], ?_, ?_, ⟨[], ?_⟩⟩
      · intro pb hpb
        cases hpb
      · rw [do_play_eq_none _ hnone]
        simp [hmut, huri]
      · rw [do_play_eq_none _ hnone]
        simp [hmut, huri]
  | some pb0 =>
      have hmut : (s.mute v).2.1.ov.muted = v := by simp [Sys.mute, h]
      have huri : (s.mute v).2.1.ov.uri = s.ov.uri := by simp [Sys.mute, h]
      have hsome : (s.mute v).2.1.ov.playbin = some { pb0 with muteCommanded := v } := by
        simp [Sys.mute, h]
      refine ⟨hmut, ?_, ?_, ?_, ⟨[Cmd.setState pb0.id GstState.NULL], ?_⟩⟩
      · intro hn
        cases hn
      · intro pb hpb
        cases hpb
        simp [Sys.mute, h]
      · rw [do_play_eq_some _ _ hsome]
        simp [hmut, huri]
      · rw [do_play_eq_some _ _ hsome]
        simp [hmut, huri]

/-- Witness for C7: muting the fresh overlay then playing commands the new handle
with mute `true` before commanding PLAYING. -/
theorem c7_mute_witness :
    (Sys.init.mute true).2.1.do_play.2.1.ov.playbin =
      some { id := 0, state := GstState.PLAYING, muteCommanded := true, pbUri := none } :=
  (c7_mute_persists Sys.init true).2.2.2.1

/-- C8: with a handle, `do_play_pause` commands PAUSED when currently playing and
PLAYING otherwise; with no handle it returns `False`, changes nothing, issues no
command, and `is_playing` is (and stays) `false`. -/
theorem c8_play_pause (s : Sys) :
    (∀ pb, s.ov.playbin = some pb →
      s.do_play_pause.2.2 =
        [Cmd.setState pb.id (if s.is_playing then GstState.PAUSED else GstState.PLAYING)]) ∧
    (s.ov.playbin = none →
      s.do_play_pause = (false, s, []) ∧ s.is_playing = false) := by
  cases h : s.ov.playbin with
  | none =>
      refine ⟨?_, fun _ => ⟨by simp [Sys.do_play_pause, h], by simp [Sys.is_playing, h]⟩⟩
      intro pb hpb
      cases hpb
  | some pb0 =>
      refine ⟨?_, ?_⟩
      · intro pb hpb
        cases hpb
        cases hp : s.is_playing <;> simp [Sys.do_play_pause, h, hp]
      · intro hn
        cases hn

/-- Witness for C8 at the fresh overlay, where no handle exists. -/
theorem c8_play_pause_witness :
    Sys.init.do_play_pause = (false, Sys.init, []) ∧ Sys.init.is_playing = false :=
  (c8_play_pause Sys.init).2 rfl

/-- C9: with a handle present, `do_update_time` forwards `time_ns / 1e9` to the
UI progress callback without clamping, so a negative position query result is
forwarded as a negative value. -/
theorem c9_position_not_clamped (s : Sys) (pb : Playbin) (h : s.ov.playbin = some pb)
    (changed : Bool) (time_ns : ℤ) :
    s.do_update_time (changed, time_ns) = (true, some ((time_ns : ℚ) / 10 ^ 9)) ∧
    (time_ns < 0 → ∃ q : ℚ, (s.do_update_time (changed, time_ns)).2 = some q ∧ q < 0) := by
  have he : s.do_update_time (changed, time_ns) =
      (true, some ((time_ns : ℚ) / 10 ^ 9)) := by
    simp [Sys.do_update_time, h]
  refine ⟨he, ?_⟩
  intro hneg
  refine ⟨(time_ns : ℚ) / 10 ^ 9, by rw [he], ?_⟩
  apply div_neg_of_neg_of_pos _ (by norm_num)
  exact_mod_cast hneg

/-- Witness for C9: right after `do_play`, a position query answering `-1` ns is
forwarded as a negative value. -/
theorem c9_position_witness :
    ∃ q : ℚ, ((Sys.init.do_play.2.1).do_update_time (true, -1)).2 = some q ∧ q < 0 :=
  (c9_position_not_clamped (Sys.init.do_play.2.1)
     { id := 0, state := GstState.PLAYING, muteCommanded := false, pbUri := none }
     rfl true (-1)).2 (by norm_num)

/-- C10: every command operation (`mute`, `do_play`, `do_play_pause`,
`do_set_time`, `do_stop`) returns `False` in every state, while `do_update_time`
returns `True` whenever a handle exists. -/
theorem c10_commands_return_false (s : Sys) (v : Bool) (t : ℚ) (q : Bool × ℤ) :
    (s.mute v).1 = false ∧ s.do_play.1 = false ∧ s.do_play_pause.1 = false ∧
    (s.do_set_time t).1 = false ∧ s.do_stop.1 = false ∧
    (s.ov.playbin ≠ none → (s.do_update_time q).1 = true) := by
  refine ⟨?_, ?_, ?_, ?_, ?_, ?_⟩
  · cases h : s.ov.playbin <;> simp [Sys.mute, h]
  · cases h : s.ov.playbin <;> simp [Sys.do_play, Sys.do_stop, h]
  · cases h : s.ov.playbin <;> simp [Sys.do_play_pause, h]
  · cases h : s.ov.playbin <;> simp [Sys.do_set_time, h]
  · cases h : s.ov.playbin <;> simp [Sys.do_stop, h]
  · intro hne
    cases h : s.ov.playbin with
    | none => exact absurd h hne
    | some pb => simp [Sys.do_update_time, h]

/-- Witness for C10: right after `do_play`, the polling tick returns `True`. -/
theorem c10_commands_witness :
    ((Sys.init.do_play.2.1).do_update_time (true, 0)).1 = true :=
  (c10_commands_return_false (Sys.init.do_play.2.1) true 0 (true, 0)).2.2.2.2.2
    (by decide)
